import Mathlib

/-!
Verification of the interactive command resolution engine of `cli-repl-kit`.

The definitions below are a shallow embedding of the Python sources:

* `cli_repl_kit/plugins/base.py`        — `ValidationResult`
* `cli_repl_kit/plugins/validation.py`  — `ValidationRule`
* `cli_repl_kit/core/validation_manager.py` — `ValidationManager`
* `cli_repl_kit/core/repl.py`           — `on_text_changed`, `do_enter`
* `cli_repl_kit/core/command_executor.py` — `CommandExecutor`
* `cli_repl_kit/core/key_bindings.py`   — `KeyBindingManager`
* `cli_repl_kit/core/output_capture.py` — `OutputCapture`

Click (the third-party argument-parsing library the sources delegate to) is
not part of the repository; where its behaviour decides an outcome it is
modelled explicitly, with a doc comment saying so.
-/

namespace CliReplKit

/-- A styled output fragment `(style, text)`, as produced for the
prompt-toolkit output buffer. -/
abbrev Styled := String × String

/-- One logical output line: a list of styled fragments
(`append_to_output_buffer` receives one such list per line). -/
abbrev Line := List Styled

/-! ## Click parameter and command model

Mirrors the attributes of `click.Parameter` that the repository reads
(`name`, `required`, `nargs`, `type`, `opts`, and the `Argument`/`Option`
distinction), plus `default`, which click's own parsing consults.  A Python
parameter whose `name` is `None` has no counterpart here (the sources skip
such parameters).  Flag-style options (`is_flag=True`) and envvar/default-map
sources are outside the model; no claim involves them. -/

inductive ParamKind where
  | argument
  | option
  deriving DecidableEq, Repr

/-- The slice of `click.ParamType` the sources inspect: either a plain type
or a `click.Choice` with its list of choices. -/
inductive ParamType where
  | plain
  | choice (choices : List String)
  deriving DecidableEq, Repr

/-- Is this type a `click.Choice`?  (`isinstance(param.type, click.Choice)`) -/
def ParamType.isChoice : ParamType → Bool
  | .plain => false
  | .choice _ => true

/-- The choice list of a `click.Choice` (empty for plain types). -/
def ParamType.choicesOf : ParamType → List String
  | .plain => []
  | .choice cs => cs

/-- A `click.Parameter` as the sources see it. -/
structure Param where
  name : String
  kind : ParamKind
  required : Bool
  /-- `param.nargs`; `-1` means "consume all remaining tokens". -/
  nargs : Int
  type : ParamType
  /-- `param.opts`, the declared flags of an option (e.g. `["--env", "-e"]`);
  empty for arguments. -/
  opts : List String
  /-- `param.default`, consulted by click's parsing when no token supplies a
  value.  The sources never read it directly. -/
  default : Option String
  deriving DecidableEq, Repr

/-- A `click.Command`: the parameter list, in declaration order. -/
structure ClickCommand where
  params : List Param
  deriving DecidableEq, Repr

/-- One entry of a `click.Group`'s `commands` mapping: either a leaf command
or a nested group with its own children (one level, as the repository uses). -/
inductive CliEntry where
  | cmd (c : ClickCommand)
  | group (children : List (String × ClickCommand))
  deriving DecidableEq, Repr

/-- The CLI group's `commands` mapping, in insertion order. -/
abbrev Cli := List (String × CliEntry)

/-- Dictionary lookup (`name in dict` / `dict[name]`). -/
def alookup {α : Type} (m : List (String × α)) (k : String) : Option α :=
  (m.find? (fun p => p.1 == k)).map Prod.snd

/-! ## Python string helpers

Implemented by structural recursion over the character list, so that every
definition reduces inside the kernel (core `String` routines such as
`String.split` recurse on byte positions and do not). -/

/-- `s.startswith(pre)`. -/
def pyStartsWith (s pre : String) : Bool :=
  pre.data.isPrefixOf s.data

/-- Drop the first `n` characters of `s` (Python `s[n:]`). -/
def pyDrop (s : String) (n : Nat) : String :=
  ⟨s.data.drop n⟩

/-- Does `s` contain character `c` (Python `c in s`)? -/
def pyContainsChar (s : String) (c : Char) : Bool :=
  s.data.contains c

/-- Split on a separator character, keeping empty pieces
(Python `s.split(c)` with an explicit separator). -/
def splitOnCharAux (c : Char) : List Char → List Char → List String
  | [], acc => [⟨acc.reverse⟩]
  | x :: xs, acc =>
    if x == c then ⟨acc.reverse⟩ :: splitOnCharAux c xs []
    else splitOnCharAux c xs (x :: acc)

/-- Python `s.split(c)` for a one-character separator. -/
def splitOnChar (c : Char) (s : String) : List String :=
  splitOnCharAux c s.data []

/-- Python `sep.join(pieces)`. -/
def pyJoin (sep : String) : List String → String
  | [] => ""
  | [x] => x
  | x :: xs => x ++ sep ++ pyJoin sep xs

/-- Token accumulator for whitespace splitting. -/
def pySplitAux : List Char → List Char → List String
  | [], [] => []
  | [], acc => [⟨acc.reverse⟩]
  | x :: xs, acc =>
    if x.isWhitespace then
      match acc with
      | [] => pySplitAux xs []
      | _ => ⟨acc.reverse⟩ :: pySplitAux xs []
    else pySplitAux xs (x :: acc)

/-- Python `str.split()` with no arguments: split on whitespace runs,
dropping empty pieces. -/
def pySplit (s : String) : List String :=
  pySplitAux s.data []

/-! ## ValidationResult — `cli_repl_kit/plugins/base.py` -/

/-- `ValidationResult` dataclass: `status` is `"valid"`, `"invalid"` or
`"warning"`, with an optional message. -/
structure ValidationResult where
  status : String
  message : Option String := none
  deriving DecidableEq, Repr

/-- `ValidationResult.is_valid`. -/
def ValidationResult.is_valid (r : ValidationResult) : Bool :=
  r.status == "valid" || r.status == "warning"

/-- `ValidationResult.should_block`. -/
def ValidationResult.should_block (r : ValidationResult) : Bool :=
  r.status == "invalid"

/-- `ValidationResult.should_warn`. -/
def ValidationResult.should_warn (r : ValidationResult) : Bool :=
  r.status == "warning"

/-! ## ValidationRule — `cli_repl_kit/plugins/validation.py` -/

/-- `ValidationRule` dataclass.  Dictionaries become association lists in
insertion order. -/
structure ValidationRule where
  level : String
  required_args : List String := []
  optional_args : List String := []
  arg_count_min : Int := 0
  arg_count_max : Int := 0
  choice_params : List (String × List String) := []
  type_params : List (String × ParamType) := []
  required_options : List String := []
  option_names : List (String × List String) := []
  click_command : Option ClickCommand := none
  deriving DecidableEq, Repr

/-! ## Rule extraction — `ValidationManager._extract_validation_rule`
(`core/validation_manager.py` lines 88–191; the copy in
`core/repl.py` lines 168–251 is the same algorithm). -/

/-- The loop state of `_extract_validation_rule`: the rule being built plus
the two local flags. -/
structure ExtractState where
  rule : ValidationRule
  has_required_params : Bool
  has_optional_params : Bool
  deriving Repr

/-- One iteration of the `for param in cmd.params` loop of
`_extract_validation_rule`. -/
def extractStep (st : ExtractState) (param : Param) : ExtractState :=
  match param.kind with
  | .argument =>
    let is_required := param.required
    let st :=
      if is_required then
        { st with
            rule := { st.rule with
              required_args := st.rule.required_args ++ [param.name] }
            has_required_params := true }
      else
        { st with
            rule := { st.rule with
              optional_args := st.rule.optional_args ++ [param.name] }
            has_optional_params := true }
    let st :=
      if param.nargs == -1 then
        { st with rule := { st.rule with arg_count_max := -1 } }
      else
        let nargs := if param.nargs == 0 then 1 else param.nargs
        let rule := { st.rule with
          arg_count_min :=
            st.rule.arg_count_min + (if is_required then nargs else 0) }
        let rule :=
          if rule.arg_count_max != -1 then
            { rule with arg_count_max := rule.arg_count_max + nargs }
          else rule
        { st with rule := rule }
    let st := { st with rule := { st.rule with
      type_params := st.rule.type_params ++ [(param.name, param.type)] } }
    if param.type.isChoice then
      { st with
          rule := { st.rule with
            choice_params :=
              st.rule.choice_params ++ [(param.name, param.type.choicesOf)] }
          has_required_params := true }
    else st
  | .option =>
    let st :=
      if param.required then
        { st with
            rule := { st.rule with
              required_options := st.rule.required_options ++ [param.name] }
            has_required_params := true }
      else st
    let st := { st with rule := { st.rule with
      option_names := st.rule.option_names ++ [(param.name, param.opts)] } }
    let st := { st with rule := { st.rule with
      type_params := st.rule.type_params ++ [(param.name, param.type)] } }
    if param.type.isChoice then
      { st with rule := { st.rule with
          choice_params :=
            st.rule.choice_params ++ [(param.name, param.type.choicesOf)] } }
    else st

/-- `ValidationManager._extract_validation_rule`: single pass over
`cmd.params`, then the level inference at the end. -/
def extract_validation_rule (cmd : ClickCommand) : ValidationRule :=
  let init : ExtractState :=
    { rule := { level := "none", click_command := some cmd }
      has_required_params := false
      has_optional_params := false }
  let st := cmd.params.foldl extractStep init
  { st.rule with
      level :=
        if st.has_required_params then "required"
        else if st.has_optional_params then "optional"
        else "none" }

/-- `ValidationManager.introspect_commands`: walk the CLI group, keying
subcommands as `"group.sub"`. -/
def introspect_commands (cli : Cli) : List (String × ValidationRule) :=
  cli.flatMap fun (name, entry) =>
    match entry with
    | .cmd c => [(name, extract_validation_rule c)]
    | .group children =>
      children.map fun (subname, sub) =>
        (name ++ "." ++ subname, extract_validation_rule sub)

/-! ## Click argument binding

`validate_command` delegates the actual binding to
`click.Command.parse_args`, which is third-party code, not part of this
repository.  The model below follows the spec's description of the binding
(§4.2: required-parameter check, choice check, structural mismatch on
too-few/too-many tokens) and click's documented behaviour; exact error
message texts for choice/structural failures are modelled, not quoted. -/

/-- The exceptions `validate_command` distinguishes: `MissingParameter`
(caught specially, yielding the `"Missing required argument: …"` message)
versus everything else (`BadParameter`/`UsageError`/other, all of which
yield `invalid` with the exception's own message). -/
inductive ParseError where
  | missingParameter (param : String)
  | otherUsage (msg : String)
  deriving DecidableEq, Repr

/-- A command-line token is treated as an option flag when it starts with
`-` and is longer than a bare dash. -/
def isOptionToken (t : String) : Bool :=
  pyStartsWith t "-" && t.length > 1

/-- Find the option parameter declaring a given flag. -/
def findOptionByFlag (params : List Param) (flag : String) : Option Param :=
  params.find? fun p => p.kind == .option && p.opts.contains flag

/-- Modelled from the spec: the token-scanning phase of click's parser
(missing from `src/` — click is an external dependency).  Splits the raw
token list into option assignments (each value-taking flag consumes the next
token) and positional tokens; an undeclared flag or a flag with no following
value is a usage error. -/
def scanTokens (params : List Param) :
    List String → Except ParseError (List (String × String) × List String)
  | [] => .ok ([], [])
  | t :: rest =>
    if isOptionToken t then
      match findOptionByFlag params t with
      | none => .error (.otherUsage ("No such option: " ++ t))
      | some p =>
        match rest with
        | [] => .error (.otherUsage ("Option " ++ t ++ " requires an argument"))
        | v :: rest' => do
          let (opts, pos) ← scanTokens params rest'
          return ((p.name, v) :: opts, pos)
    else do
      let (opts, pos) ← scanTokens params rest
      return (opts, t :: pos)

/-- Check one supplied value against a parameter's type
(`click.Choice` conversion failure → usage error). -/
def convertValue (p : Param) (v : String) : Except ParseError Unit :=
  match p.type with
  | .plain => .ok ()
  | .choice cs =>
    if cs.contains v then .ok ()
    else .error (.otherUsage
      ("Invalid value for " ++ p.name ++ ": " ++ v ++ " is not a valid choice"))

/-- Modelled from the spec: processing of one parameter during click's
binding (missing from `src/`).  Options take their value from the scanned
flag assignments, arguments consume `nargs` positional tokens (`-1` consumes
all remaining); a parameter with no token falls back to its default, and a
required parameter with neither raises `MissingParameter`.  Returns the
positional tokens still unconsumed. -/
def processParam (opts : List (String × String)) (positionals : List String)
    (p : Param) : Except ParseError (List String) :=
  match p.kind with
  | .option =>
    match alookup opts p.name with
    | some v => do
      convertValue p v
      return positionals
    | none =>
      match p.default with
      | some _ => .ok positionals
      | none =>
        if p.required then .error (.missingParameter p.name)
        else .ok positionals
  | .argument =>
    if p.nargs == -1 then
      match positionals with
      | [] =>
        if p.required then .error (.missingParameter p.name)
        else .ok []
      | vs => do
        vs.forM (convertValue p)
        return []
    else
      let n := p.nargs.toNat
      let n := if n == 0 then 1 else n
      if positionals.length ≥ n then do
        (positionals.take n).forM (convertValue p)
        return positionals.drop n
      else
        match positionals with
        | [] =>
          match p.default with
          | some _ => .ok []
          | none =>
            if p.required then .error (.missingParameter p.name)
            else .ok []
        | vs => .error (.otherUsage
            ("Argument " ++ p.name ++ " takes " ++ toString n ++ " values but "
              ++ toString vs.length ++ " were provided"))

/-- Modelled from the spec: `click.Command.parse_args` (missing from
`src/`).  Scans tokens, binds each declared parameter in declaration order,
and rejects leftover positional tokens.  (With no tokens on the command
line, click processes parameters in declaration order; the collective
redistribution click performs around an interior `nargs=-1` argument is not
modelled — no claim involves one.) -/
def parse_args (cmd : ClickCommand) (args : List String) :
    Except ParseError Unit := do
  let (opts, positionals) ← scanTokens cmd.params args
  let remaining ← cmd.params.foldlM (processParam opts) positionals
  if remaining.isEmpty then
    return ()
  else
    .error (.otherUsage
      ("Got unexpected extra arguments (" ++ pyJoin " " remaining ++ ")"))

/-! ## Command validation — `ValidationManager.validate_command`
(`core/validation_manager.py` lines 193–266) and
`REPL._validate_command_auto` (`core/repl.py` lines 267–322).

Click's `parse_args` destructively pops the token list it is handed, so the
state of the caller's `cmd_args` list after the call is part of each
function's observable behaviour; both functions below return it as a third
component.  `ValidationManager.validate_command` passes `cmd_args.copy()`
(source comment: "parse_args modifies the list, so pass a copy"), while
`REPL._validate_command_auto` passes the list itself. -/

/-- What click's parser leaves in the (mutated) list object it was handed:
the parser pops every token while scanning, draining the list. -/
def parseArgsMutatedList (_cmd : ClickCommand) (_args : List String) :
    List String := []

/-- The `try`/`except` ladder shared by the two validators: run
`parse_args`, mapping each exception class to the source's
`ValidationResult`; the returned level is `rule.level` in every branch. -/
def validateWithRule (cmd : ClickCommand) (level : String)
    (parseList : List String) : ValidationResult × Option String :=
  match parse_args cmd parseList with
  | .ok _ => (⟨"valid", none⟩, some level)
  | .error (.missingParameter n) =>
    (⟨"invalid", some ("Missing required argument: " ++ n)⟩, some level)
  | .error (.otherUsage msg) =>
    (⟨"invalid", some msg⟩, some level)

/-- `ValidationManager.validate_command`.  The third component is the
content of the caller's `cmd_args` list after the call: the source hands
`parse_args` a copy (`cmd_args.copy()`), so the caller's list is untouched
in every branch. -/
def validate_command (rules : List (String × ValidationRule))
    (cmd_path : String) (cmd_args : List String) :
    (ValidationResult × Option String) × List String :=
  match alookup rules cmd_path with
  | none => ((⟨"valid", none⟩, none), cmd_args)
  | some rule =>
    if rule.level == "none" then ((⟨"valid", none⟩, none), cmd_args)
    else
      match rule.click_command with
      | none => ((⟨"valid", none⟩, none), cmd_args)
      | some cmd => (validateWithRule cmd rule.level cmd_args, cmd_args)

/-- `REPL._validate_command_auto`: same algorithm, but `parse_args` receives
the caller's list itself, so the caller's list is drained by the parser
(rules produced by introspection always carry a command, so the
`click_command is None` case cannot arise there). -/
def validate_command_auto (rules : List (String × ValidationRule))
    (cmd_path : String) (cmd_args : List String) :
    (ValidationResult × Option String) × List String :=
  match alookup rules cmd_path with
  | none => ((⟨"valid", none⟩, none), cmd_args)
  | some rule =>
    if rule.level == "none" then ((⟨"valid", none⟩, none), cmd_args)
    else
      match rule.click_command with
      | none =>
        ((⟨"invalid", some "Validation error: command missing"⟩,
          some rule.level), cmd_args)
      | some cmd =>
        (validateWithRule cmd rule.level cmd_args,
          parseArgsMutatedList cmd cmd_args)

/-! ## Configuration slice

The styling names the dispatcher reads from `self.config`
(`config.symbols.*` and `config.colors.*`), kept abstract as strings. -/

structure Config where
  symbols_warning : String := "⚠"
  symbols_command_with_args : String := "■"
  symbols_command_error : String := "●"
  symbols_command_success : String := "●"
  symbols_indent : String := "⎿"
  symbols_error : String := "✗"
  colors_warning : String := "yellow"
  colors_grey : String := "grey"
  colors_error : String := "red"
  colors_success : String := "green"
  deriving Repr

/-! ## More Python string helpers -/

/-- Python `str.split(maxsplit=1)`: leading whitespace dropped, first token,
then the untouched remainder after the whitespace that follows the token. -/
def pySplitMax1 (s : String) : List String :=
  let cs := s.data.dropWhile Char.isWhitespace
  let tok := cs.takeWhile (fun c => !c.isWhitespace)
  let rest := (cs.dropWhile (fun c => !c.isWhitespace)).dropWhile Char.isWhitespace
  if tok.isEmpty then []
  else if rest.isEmpty then [⟨tok⟩]
  else [⟨tok⟩, ⟨rest⟩]

/-- Python `str.rstrip()`: drop trailing whitespace. -/
def pyRstrip (s : String) : String :=
  ⟨(s.data.reverse.dropWhile Char.isWhitespace).reverse⟩

/-! ## Command echo formatting —
`CommandExecutor.format_command_display` (`core/command_executor.py`
lines 69–172; `format_command_display` in `core/repl.py` is the same). -/

/-- The subcommand-walk loop of `format_command_display`: consume argument
words naming children of the current (group) command; on the first word that
does not, the rest of the words (space-joined) is free text; if all words
are consumed the remaining text is empty (the `for … else` branch). -/
def walkSubcommands (cur : Option CliEntry) :
    List String → List String × String
  | [] => ([], "")
  | w :: ws =>
    match cur with
    | some (.group children) =>
      match alookup children w with
      | some child =>
        let (chain, rest) := walkSubcommands (some (.cmd child)) ws
        (w :: chain, rest)
      | none => ([], pyJoin " " (w :: ws))
    | _ => ([], pyJoin " " (w :: ws))

/-- `CommandExecutor.format_command_display`. -/
def format_command_display (cfg : Config) (cli : Cli) (command_text : String)
    (has_error : Bool := false) (has_warning : Bool := false) : List Line :=
  let command_text :=
    if pyStartsWith command_text "/" then pyDrop command_text 1
    else command_text
  match pySplitMax1 command_text with
  | [] => []
  | parts =>
    let cmd_name := parts.headD ""
    let has_args := decide (parts.length > 1)
    let args_text := (parts.drop 1).headD ""
    let (subcommand_chain, remaining_text) :=
      if has_args then
        walkSubcommands (alookup cli cmd_name) (pySplit args_text)
      else ([], args_text)
    let (icon, icon_color) :=
      if has_warning then (cfg.symbols_warning, cfg.colors_warning)
      else if has_args then (cfg.symbols_command_with_args, cfg.colors_grey)
      else if has_error then (cfg.symbols_command_error, cfg.colors_error)
      else (cfg.symbols_command_success, cfg.colors_success)
    let cmd_display : Line :=
      [(icon_color, icon ++ " "), (cfg.colors_grey, "/" ++ cmd_name)]
        ++ subcommand_chain.map (fun sub => (cfg.colors_grey, " → " ++ sub))
    if remaining_text == "" then [cmd_display]
    else
      let indent_prefix : Line := [(cfg.colors_grey, cfg.symbols_indent ++ " ")]
      let text_lines := splitOnChar '\n' remaining_text
      cmd_display ::
        (text_lines.enum.map fun (i, line) =>
          if i == 0 then indent_prefix ++ [("", line)]
          else [("", "  " ++ line)])

/-! ## Command execution — `CommandExecutor._execute_click_command`
(`core/command_executor.py` lines 298–356; `REPL._execute_click_command`
in `core/repl.py` lines 1323–1373 has the same exception boundary). -/

/-- An exception a command body can raise through `ctx.invoke`.  The Python
`Exception` hierarchy is modelled by `missingParameter` (which the source
catches by class) and `exception` (any other `Exception` subclass, caught by
the `except Exception` clause); `systemExit` is the deliberate termination
signal (`SystemExit`, raised by `quit`/`exit`-style bodies).  Signals that
live outside the `Exception` hierarchy altogether (`KeyboardInterrupt`) are
likewise deliberate terminations and are outside this model. -/
inductive PyExc where
  | systemExit
  | missingParameter (param : String)
  | exception (msg : String)
  deriving DecidableEq, Repr

/-- What one invocation of a command body does: the exception it raises (if
any) and the text it wrote to the redirected stdout/stderr before
returning or raising. -/
structure ExecBehavior where
  raises : Option PyExc := none
  stdout : String := ""
  stderr : String := ""
  deriving Repr

/-- The observable result of `_execute_click_command`: the lines appended to
the output sink, and any exception that escaped the execution boundary. -/
structure ExecResult where
  outputs : List Line := []
  propagated : Option PyExc := none
  deriving DecidableEq, Repr

/-- The `except` ladder of `_execute_click_command`, clause by clause:
`SystemExit` is swallowed, `MissingParameter` and every other `Exception`
become one red error line; `none` would mean the exception escapes, which
no clause of the ladder allows for the modelled hierarchy. -/
def catchClauses : PyExc → Option (List Line)
  | .systemExit => some []
  | .missingParameter n => some [[("red", "Missing argument: " ++ n)]]
  | .exception msg => some [[("red", "Error: " ++ msg)]]

/-- Lines produced from a captured stream: Python appends
`text.rstrip().split("\n")`, one styled line each, only when the captured
text is non-empty. -/
def capturedLines (style : String) (text : String) : List Line :=
  if text == "" then []
  else (splitOnChar '\n' (pyRstrip text)).map (fun line => [(style, line)])

/-- `CommandExecutor._execute_click_command`, as a function of the body's
behaviour: exception lines first (from the `except` clauses), then captured
stdout lines unstyled, then captured stderr lines in red. -/
def execute_click_command (b : ExecBehavior) : ExecResult :=
  match b.raises with
  | none =>
    { outputs := capturedLines "" b.stdout ++ capturedLines "red" b.stderr }
  | some e =>
    match catchClauses e with
    | some excLines =>
      { outputs := excLines ++ capturedLines "" b.stdout
          ++ capturedLines "red" b.stderr }
    | none => { propagated := some e }

/-! ## The dispatcher — `CommandExecutor.execute_command`
(`core/command_executor.py` lines 174–296).  The inline `do_enter` handler
of `core/repl.py` (lines 1102–1288) shares the same decision logic from
tokenisation through blocking, history and execution. -/

/-- The observable outcome of one submission. -/
structure DispatchResult where
  outputs : List Line := []
  historyRecorded : Bool := false
  /-- the click command body dispatched (with the argument list handed to
  it), if any -/
  executed : Option (ClickCommand × List String) := none
  blocked : Bool := false
  exited : Bool := false
  deriving Repr

/-- The `should_block`/`has_warning`/`has_error` decision chain of
`execute_command` (and of `do_enter`), in source order. -/
def dispatchDecision (command_exists : Bool) (validation_result : ValidationResult)
    (validation_level : Option String) : Bool × Bool × Bool :=
  if !command_exists then (false, false, true)
  else if validation_level == some "required" && validation_result.should_block then
    (true, false, true)
  else if validation_level == some "optional" && validation_result.should_warn then
    (false, true, false)
  else (false, false, false)

/-- `CommandExecutor.execute_command`.  `validate` is the injected
`validate_callback` (wired to `REPL._validate_command` →
`_validate_command_auto`); it returns, besides result and level, the content
of the caller's `cmd_args` list after the call, since click's parser drains
the list it is handed and the executor goes on using `cmd_args` afterwards.
`bodySem` gives the behaviour of each command body. -/
def execute_command (cfg : Config) (cli : Cli)
    (validate : String → List String →
      (ValidationResult × Option String) × List String)
    (bodySem : ClickCommand → List String → ExecBehavior)
    (enable_agent_mode : Bool) (text : String) : DispatchResult :=
  if !pyStartsWith text "/" && enable_agent_mode then
    { outputs := [[("cyan", "Echo: "), ("", text)], [("", "")]] }
  else
    let command := if pyStartsWith text "/" then pyDrop text 1 else text
    match pySplit command with
    | [] => {}
    | cmd_name :: cmd_args₀ =>
      let command_exists :=
        cmd_name ∈ ["quit", "exit", "status", "info"]
          || (alookup cli cmd_name).isSome
      let ((validation_result, validation_level), cmd_args) :=
        validate cmd_name cmd_args₀
      let (should_block, has_warning, has_error) :=
        dispatchDecision command_exists validation_result validation_level
      let outputs := format_command_display cfg cli text has_error has_warning
      let outputs := outputs ++
        match validation_result.message with
        | some msg =>
          if should_block then
            [[("red", cfg.symbols_error ++ " " ++ msg)]]
          else if has_warning then
            [[("yellow", cfg.symbols_warning ++ " " ++ msg)]]
          else []
        | none => []
      if should_block then
        { outputs := outputs ++ [[("", "")]], blocked := true }
      else
        if cmd_name == "quit" || cmd_name == "exit" then
          { outputs := outputs ++ [[("", "Goodbye!")]]
            historyRecorded := true, exited := true }
        else
          match alookup cli cmd_name with
          | some (.group children) =>
            (match cmd_args with
             | sub :: subArgs =>
               match alookup children sub with
               | some subcmd =>
                 let er := execute_click_command (bodySem subcmd subArgs)
                 { outputs := outputs ++ er.outputs ++ [[("", "")]]
                   historyRecorded := true, executed := some (subcmd, subArgs) }
               | none =>
                 { outputs := outputs ++ [[("", "")], [("", "")]]
                   historyRecorded := true }
             | [] =>
               { outputs := outputs ++ [[("", "")], [("", "")]]
                 historyRecorded := true })
          | some (.cmd c) =>
            let er := execute_click_command (bodySem c cmd_args)
            { outputs := outputs ++ er.outputs ++ [[("", "")]]
              historyRecorded := true, executed := some (c, cmd_args) }
          | none =>
            { outputs := outputs
                ++ [[("red", "Unknown command: " ++ cmd_name)], [("", "")]]
              historyRecorded := true }

/-! ## Interaction state — `core/state.py` (`REPLState`) and the
prompt-toolkit completion objects the handlers read. -/

/-- The fields of a prompt-toolkit `Completion` that the handlers read. -/
structure Completion where
  text : String
  start_position : Int := 0
  display_meta : String := ""
  deriving DecidableEq, Repr

/-- The `REPLState` dataclass. -/
structure REPLState where
  completions : List Completion := []
  selected_idx : Int := 0
  placeholder_active : Bool := false
  placeholder_start : Nat := 0
  status_text : List Styled := []
  info_text : List Styled := []
  slash_command_active : Bool := false
  is_multiline : Bool := false
  menu_keep_visible : Bool := false
  deriving DecidableEq, Repr

/-- The input buffer fields the text-changed handler touches.  Assigning
`text`/`cursor_position` on a prompt-toolkit `Buffer` keeps the cursor
clamped to `[0, len(text)]`; the clamp is applied where the handler
assigns. -/
structure InputBuffer where
  text : String
  cursor_position : Nat
  deriving DecidableEq, Repr

/-! ## The placeholder regular expression `<[a-z0-9_]+>`
(`re.search` in `on_text_changed`, `core/repl.py` lines 740–751). -/

/-- The character class `[a-z0-9_]`. -/
def isPlaceholderChar (c : Char) : Bool :=
  ('a' ≤ c && c ≤ 'z') || ('0' ≤ c && c ≤ '9') || c == '_'

/-- Length of a match of `<[a-z0-9_]+>` anchored at the head of the
character list, if any.  Since neither `<` nor `>` belongs to the class,
the match at a given start is unique: `<`, the maximal non-empty run of
class characters, then `>`. -/
def placeholderMatchLen (cs : List Char) : Option Nat :=
  match cs with
  | '<' :: rest =>
    let run := rest.takeWhile isPlaceholderChar
    if run.length > 0 && (rest.drop run.length).head? == some '>' then
      some (run.length + 2)
    else none
  | _ => none

/-- `re.search("<[a-z0-9_]+>", text)`: the span `(start, end)` of the
leftmost match, in character positions, if any. -/
def reSearchPlaceholder (s : String) : Option (Nat × Nat) :=
  go s.data 0
where
  go : List Char → Nat → Option (Nat × Nat)
    | [], _ => none
    | c :: rest, i =>
      match placeholderMatchLen (c :: rest) with
      | some len => some (i, i + len)
      | none => go rest (i + 1)

/-! ## Text-changed handler — `on_text_changed` (`core/repl.py`
lines 732–786).

The handler is modelled as one invocation acting on explicit state; buffer
assignments are plain field updates (prompt-toolkit would fire the handler
again on the nested `text` assignment, which the spec and the claim treat
as part of the same edit cycle). -/

/-- Result of one `on_text_changed` invocation; `recomputedCompletions`
records whether the handler reached the completion-recomputation part or
returned early from the placeholder-removal branch. -/
structure TextChangedResult where
  state : REPLState
  buffer : InputBuffer
  recomputedCompletions : Bool
  deriving Repr

/-- The completion-recomputation tail of `on_text_changed`: for slash input
recompute `completions` via the completion engine and reset the selection;
otherwise clear them. -/
def recomputeCompletionsPart (completer : String → List Completion)
    (state : REPLState) (buf : InputBuffer) : TextChangedResult :=
  let text := buf.text
  if pyStartsWith text "/" then
    let completions := completer text
    let state := { state with
      completions := completions
      selected_idx := if completions.isEmpty then -1 else 0 }
    let state :=
      if !completions.isEmpty then { state with menu_keep_visible := true }
      else state
    ⟨state, buf, true⟩
  else
    ⟨{ state with
        completions := [], selected_idx := -1, menu_keep_visible := false },
      buf, true⟩

/-- `on_text_changed`.  Recomputes the `slash_command_active` and
`is_multiline` flags, then, when a placeholder is active, still present,
and the cursor has advanced past `placeholder_start`, performs the
placeholder-removal edit and returns without recomputing completions:
`new_text = text[:span[0]] + text[span[1] + 6:]`, and the cursor moves back
by 6 when it sits beyond the match start. -/
def on_text_changed (completer : String → List Completion)
    (state : REPLState) (buf : InputBuffer) : TextChangedResult :=
  let text := buf.text
  let state := { state with
    slash_command_active := pyStartsWith text "/"
    is_multiline := pyContainsChar text '\n' }
  match (if state.placeholder_active then reSearchPlaceholder text else none) with
  | some span =>
    let cursor_pos := buf.cursor_position
    if cursor_pos > state.placeholder_start then
      let chars := text.data
      let new_text : String := ⟨chars.take span.1 ++ chars.drop (span.2 + 6)⟩
      let new_cursor : Int :=
        if (cursor_pos : Int) > (span.1 : Int) then (cursor_pos : Int) - 6
        else (cursor_pos : Int)
      let new_cursor : Nat := min ((max new_cursor 0).toNat) new_text.length
      ⟨{ state with placeholder_active := false },
        { text := new_text, cursor_position := new_cursor }, false⟩
    else
      recomputeCompletionsPart completer state buf
  | none =>
    recomputeCompletionsPart completer state buf

/-! ## Up/Down navigation — `KeyBindingManager._handle_up` /
`_handle_down` (`core/key_bindings.py` lines 97–155; the inline handlers in
`core/repl.py` lines 930–986 are the same). -/

/-- The buffer fields the navigation handlers touch, including a model of
the prompt-toolkit history the buffer navigates at cursor position 0. -/
structure KBuffer where
  text : String
  cursor_position : Nat
  histPast : List String := []
  histFuture : List String := []
  deriving DecidableEq, Repr

/-- The logical lines of the buffer text. -/
def KBuffer.lines (b : KBuffer) : List String :=
  splitOnChar '\n' b.text

/-- Line index and column of a character position. -/
def lineColOf (text : String) (pos : Nat) : Nat × Nat :=
  let before := text.data.take pos
  let line := before.count '\n'
  let col := (before.reverse.takeWhile (fun c => c ≠ '\n')).length
  (line, col)

/-- Character position of a (line, column) pair, column clamped to the
line's length. -/
def posOfLineCol (text : String) (line col : Nat) : Nat :=
  let ls := splitOnChar '\n' text
  let prefixLen := ((ls.take line).map (fun l => l.length + 1)).sum
  let lineLen := ((ls.drop line).headD "").length
  prefixLen + min col lineLen

/-- `buffer.cursor_up()`: move the cursor one logical line up, preserving
the column where possible. -/
def KBuffer.cursor_up (b : KBuffer) : KBuffer :=
  let (line, col) := lineColOf b.text b.cursor_position
  if line == 0 then b
  else { b with cursor_position := posOfLineCol b.text (line - 1) col }

/-- `buffer.cursor_down()`: one logical line down, preserving the column
where possible. -/
def KBuffer.cursor_down (b : KBuffer) : KBuffer :=
  let (line, col) := lineColOf b.text b.cursor_position
  if line + 1 ≥ b.lines.length then b
  else { b with cursor_position := posOfLineCol b.text (line + 1) col }

/-- `buffer.history_backward()`: load the previous history entry (if any),
cursor at its end. -/
def KBuffer.history_backward (b : KBuffer) : KBuffer :=
  match b.histPast with
  | [] => b
  | h :: rest =>
    { text := h, cursor_position := h.length
      histPast := rest, histFuture := b.text :: b.histFuture }

/-- `buffer.history_forward()`: load the next history entry (if any),
cursor at its end. -/
def KBuffer.history_forward (b : KBuffer) : KBuffer :=
  match b.histFuture with
  | [] => b
  | h :: rest =>
    { text := h, cursor_position := h.length
      histPast := b.text :: b.histPast, histFuture := rest }

/-- `KeyBindingManager._handle_up`: menu navigation when a slash command is
active with more than one completion; else cursor movement in multiline
input; else history at column 0; else jump to the start. -/
def handle_up (state : REPLState) (b : KBuffer) : REPLState × KBuffer :=
  if state.slash_command_active && state.completions.length > 1 then
    if state.selected_idx > 0 then
      ({ state with selected_idx := state.selected_idx - 1 }, b)
    else (state, b)
  else if state.is_multiline then (state, b.cursor_up)
  else if b.cursor_position == 0 then (state, b.history_backward)
  else (state, { b with cursor_position := 0 })

/-- `KeyBindingManager._handle_down`: the symmetric handler. -/
def handle_down (state : REPLState) (b : KBuffer) : REPLState × KBuffer :=
  if state.slash_command_active && state.completions.length > 1 then
    if state.selected_idx < (state.completions.length : Int) - 1 then
      ({ state with selected_idx := state.selected_idx + 1 }, b)
    else (state, b)
  else if state.is_multiline then (state, b.cursor_down)
  else if b.cursor_position == 0 then (state, b.history_forward)
  else (state, { b with cursor_position := 0 })

/-- An Up or Down key event. -/
inductive NavKey where
  | up
  | down
  deriving DecidableEq, Repr

/-- Dispatch one Up/Down key event. -/
def navStep (k : NavKey) (sb : REPLState × KBuffer) : REPLState × KBuffer :=
  match k with
  | .up => handle_up sb.1 sb.2
  | .down => handle_down sb.1 sb.2

/-! ## Output capture — `OutputCapture.write`
(`core/output_capture.py` lines 43–58). -/

/-- The `OutputCapture` fields `write` reads: the stream tag and the
configured error colour (`config.colors.error`). -/
structure OutputCapture where
  stream_type : String
  error_color : String
  deriving DecidableEq, Repr

/-- `OutputCapture.write`: the list of callback invocations (one formatted
line each) that writing `text` produces. -/
def OutputCapture.write (oc : OutputCapture) (text : String) : List Line :=
  if text == "" || text == "\n" then []
  else if oc.stream_type == "stderr" then [[(oc.error_color, text)]]
  else [[("", text)]]

/-! ## Derived predicates and runs used by the verification -/

/-- A parameter that sets the extractor's `has_required_params` flag in
`_extract_validation_rule`: a required argument, an argument whose type is a
`click.Choice`, or a required option. -/
def paramForcesRequired (p : Param) : Bool :=
  match p.kind with
  | .argument => p.required || p.type.isChoice
  | .option => p.required

/-- With an empty command line, the parameters on which the modelled
`parse_args` raises `MissingParameter`: required with no default, or a
required variadic argument (click supports no default there). -/
def missingOnEmpty (p : Param) : Bool :=
  p.required &&
    (p.default == none || (p.kind == ParamKind.argument && p.nargs == -1))

/-- Run a sequence of Up/Down key events through the navigation handlers. -/
def navRun (keys : List NavKey) (sb : REPLState × KBuffer) :
    REPLState × KBuffer :=
  keys.foldl (fun sb k => navStep k sb) sb

/-! ## Concrete commands used as test inputs -/

/-- A command with one required argument and no default
(`@click.argument("name", required=True)`). -/
def greetCmd : ClickCommand :=
  { params := [{ name := "name", kind := .argument, required := true,
                 nargs := 1, type := .plain, opts := [], default := none }] }

/-- A command with one optional argument carrying a default
(`@click.argument("name", default="World")`; click then sets
`required=False`). -/
def helloOptionalCmd : ClickCommand :=
  { params := [{ name := "name", kind := .argument, required := false,
                 nargs := 1, type := .plain, opts := [],
                 default := some "World" }] }

/-- A command with a single non-required option whose type is a
`click.Choice` (`@click.option("--env", type=click.Choice([...]))`). -/
def envChoiceOptionCmd : ClickCommand :=
  { params := [{ name := "env", kind := .option, required := false,
                 nargs := 1, type := .choice ["dev", "prod"],
                 opts := ["--env"], default := none }] }

/-- A command with one required `click.Choice` argument
(`@click.argument("env", type=click.Choice(["dev", "staging", "prod"]))`). -/
def deployCmd : ClickCommand :=
  { params := [{ name := "env", kind := .argument, required := true,
                 nargs := 1, type := .choice ["dev", "staging", "prod"],
                 opts := [], default := none }] }

/-! # Helper lemmas -/

theorem extractStep_click_command (st : ExtractState) (p : Param) :
    (extractStep st p).rule.click_command = st.rule.click_command := by
  cases hk : p.kind <;> simp only [extractStep, hk] <;> split_ifs <;> rfl

theorem extractStep_has_required_mono (st : ExtractState) (p : Param)
    (h : st.has_required_params = true) :
    (extractStep st p).has_required_params = true := by
  cases hk : p.kind <;> simp only [extractStep, hk] <;> split_ifs <;> simp [h]

theorem extractStep_forces (st : ExtractState) (p : Param)
    (h : paramForcesRequired p = true) :
    (extractStep st p).has_required_params = true := by
  cases hk : p.kind <;>
    simp only [paramForcesRequired, hk] at h <;>
    simp only [extractStep, hk] <;>
    split_ifs <;> simp_all

theorem foldl_extractStep_mono (l : List Param) (st : ExtractState)
    (h : st.has_required_params = true) :
    (l.foldl extractStep st).has_required_params = true := by
  induction l generalizing st with
  | nil => exact h
  | cons p l ih => exact ih _ (extractStep_has_required_mono st p h)

theorem foldl_extractStep_forces (l : List Param) (st : ExtractState)
    (h : ∃ p ∈ l, paramForcesRequired p = true) :
    (l.foldl extractStep st).has_required_params = true := by
  induction l generalizing st with
  | nil => simp at h
  | cons q l ih =>
    obtain ⟨p, hp, hf⟩ := h
    rcases List.mem_cons.mp hp with rfl | hmem
    · exact foldl_extractStep_mono l _ (extractStep_forces st p hf)
    · exact ih _ ⟨p, hmem, hf⟩

theorem extract_level_required (cmd : ClickCommand)
    (h : ∃ p ∈ cmd.params, paramForcesRequired p = true) :
    (extract_validation_rule cmd).level = "required" := by
  unfold extract_validation_rule
  simp [foldl_extractStep_forces _ _ h]

theorem foldl_extractStep_click (l : List Param) (st : ExtractState) :
    (l.foldl extractStep st).rule.click_command = st.rule.click_command := by
  induction l generalizing st with
  | nil => rfl
  | cons p l ih => rw [List.foldl_cons, ih, extractStep_click_command]

theorem extract_click_command_eq (cmd : ClickCommand) :
    (extract_validation_rule cmd).click_command = some cmd := by
  unfold extract_validation_rule
  rw [foldl_extractStep_click]

theorem except_bind_ok {α β ε : Type} (a : α) (f : α → Except ε β) :
    (Except.ok a >>= f) = f a := rfl

theorem except_bind_error {α β ε : Type} (e : ε) (f : α → Except ε β) :
    ((Except.error e : Except ε α) >>= f) = Except.error e := rfl

theorem processParam_nil (p : Param) :
    processParam [] [] p =
      if missingOnEmpty p then Except.error (ParseError.missingParameter p.name)
      else Except.ok [] := by
  unfold processParam missingOnEmpty
  cases hk : p.kind <;>
    cases hd : p.default <;>
    cases hr : p.required <;>
    simp [alookup] <;>
    split_ifs <;> simp_all [pure, Except.pure]

theorem foldlM_processParam_nil (l : List Param) :
    List.foldlM (processParam []) [] l =
      (match l.find? missingOnEmpty with
      | some q => Except.error (ParseError.missingParameter q.name)
      | none => Except.ok ([] : List String)) := by
  induction l with
  | nil => rfl
  | cons p l ih =>
    by_cases h : missingOnEmpty p
    · simp [List.foldlM_cons, processParam_nil, h, List.find?_cons,
        except_bind_error]
    · simp only [List.foldlM_cons, processParam_nil, h, if_false]
      simp [List.find?_cons, h, ih, except_bind_ok]

theorem parse_args_nil (cmd : ClickCommand) :
    parse_args cmd [] =
      (match cmd.params.find? missingOnEmpty with
      | some q => Except.error (ParseError.missingParameter q.name)
      | none => Except.ok ()) := by
  unfold parse_args
  cases hf : cmd.params.find? missingOnEmpty <;>
    simp [scanTokens, foldlM_processParam_nil, hf, except_bind_ok,
      except_bind_error, List.isEmpty, pure, Except.pure]

theorem dispatchDecision_not_required (ce : Bool) (r : ValidationResult)
    (lvl : Option String) (h : lvl ≠ some "required") :
    (dispatchDecision ce r lvl).1 = false := by
  unfold dispatchDecision
  split_ifs <;> simp_all

theorem navStep_menu_step (k : NavKey) (t : REPLState) (c : KBuffer)
    (hs : t.slash_command_active = true)
    (hlen : 1 < t.completions.length)
    (hlo : 0 ≤ t.selected_idx)
    (hhi : t.selected_idx < (t.completions.length : Int)) :
    0 ≤ (navStep k (t, c)).1.selected_idx ∧
    (navStep k (t, c)).1.selected_idx < (t.completions.length : Int) ∧
    ((navStep k (t, c)).1.selected_idx - t.selected_idx).natAbs ≤ 1 ∧
    (navStep k (t, c)).1.completions = t.completions ∧
    (navStep k (t, c)).1.slash_command_active = true ∧
    (k = NavKey.up → t.selected_idx = 0 →
      (navStep k (t, c)).1.selected_idx = 0) ∧
    (k = NavKey.down → t.selected_idx = (t.completions.length : Int) - 1 →
      (navStep k (t, c)).1.selected_idx = (t.completions.length : Int) - 1) := by
  have hl1 : t.completions.length > 1 := hlen
  cases k with
  | up =>
    simp only [navStep, handle_up, hs, Bool.true_and, decide_eq_true hl1,
      if_true]
    by_cases h : t.selected_idx > 0
    · rw [if_pos h]
      dsimp only
      refine ⟨by omega, by omega, by omega, rfl, by simp [hs], ?_, ?_⟩
      · intro _ h0; omega
      · intro hk _; cases hk
    · rw [if_neg h]
      dsimp only
      refine ⟨by omega, by omega, by omega, rfl, by simp [hs], ?_, ?_⟩
      · intro _ h0; omega
      · intro hk _; cases hk
  | down =>
    simp only [navStep, handle_down, hs, Bool.true_and, decide_eq_true hl1,
      if_true]
    by_cases h : t.selected_idx < (t.completions.length : Int) - 1
    · rw [if_pos h]
      dsimp only
      refine ⟨by omega, by omega, by omega, rfl, by simp [hs], ?_, ?_⟩
      · intro hk _; cases hk
      · intro _ h0; omega
    · rw [if_neg h]
      dsimp only
      refine ⟨by omega, by omega, by omega, rfl, by simp [hs], ?_, ?_⟩
      · intro hk _; cases hk
      · intro _ h0; omega

theorem navRun_menu_invariant (keys : List NavKey) (sb : REPLState × KBuffer)
    (hs : sb.1.slash_command_active = true)
    (hlen : 1 < sb.1.completions.length)
    (hlo : 0 ≤ sb.1.selected_idx)
    (hhi : sb.1.selected_idx < (sb.1.completions.length : Int)) :
    (navRun keys sb).1.slash_command_active = true ∧
    (navRun keys sb).1.completions = sb.1.completions ∧
    0 ≤ (navRun keys sb).1.selected_idx ∧
    (navRun keys sb).1.selected_idx < (sb.1.completions.length : Int) := by
  induction keys generalizing sb with
  | nil => exact ⟨hs, rfl, hlo, hhi⟩
  | cons k keys ih =>
    obtain ⟨s, b⟩ := sb
    obtain ⟨h1, h2, h3, h4, h5, _, _⟩ := navStep_menu_step k s b hs hlen hlo hhi
    have hstep : navRun (k :: keys) (s, b) = navRun keys (navStep k (s, b)) := rfl
    rw [hstep]
    have hlen2 : 1 < (navStep k (s, b)).1.completions.length := by
      rw [h4]; exact hlen
    have hhi2 : (navStep k (s, b)).1.selected_idx <
        ((navStep k (s, b)).1.completions.length : Int) := by
      rw [h4]; exact h2
    obtain ⟨g1, g2, g3, g4⟩ := ih (navStep k (s, b)) h5 hlen2 h1 hhi2
    refine ⟨g1, g2.trans h4, g3, ?_⟩
    have hlen_eq : ((navStep k (s, b)).1.completions.length : Int)
        = (s.completions.length : Int) := by rw [h4]
    rw [hlen_eq] at g4
    exact g4

/-! # Claim theorems -/

/-- C1 (counterexample): with an empty command tree, submitting `/foo` —
whose first token `foo` is neither a built-in name nor registered — still
records the submission in command history (`append_to_history` runs), so
the claim that such a submission is blocked with nothing recorded is false
on the code. -/
theorem unknown_command_records_history_counterexample :
    ("foo" ∉ (["quit", "exit", "status", "info"] : List String)) ∧
    alookup ([] : Cli) "foo" = none ∧
    (execute_command {} [] (validate_command_auto []) (fun _ _ => {})
      false "/foo").historyRecorded = true := by
  refine ⟨by decide, rfl, by rfl⟩

/-- C1 (amended): for every submission whose first token is neither a
built-in name nor registered in the command tree, the dispatcher executes
no command body and emits the `Unknown command` line in error styling, but
it does not treat the submission as blocked: the input is recorded in
command history. -/
theorem execute_command_unknown_reports_error_and_records_history
    (cfg : Config) (cli : Cli)
    (validate : String → List String →
      (ValidationResult × Option String) × List String)
    (bodySem : ClickCommand → List String → ExecBehavior)
    (agent : Bool) (text name : String) (args : List String)
    (hmode : pyStartsWith text "/" = true ∨ agent = false)
    (hsplit : pySplit (if pyStartsWith text "/" then pyDrop text 1 else text)
      = name :: args)
    (hb : name ∉ (["quit", "exit", "status", "info"] : List String))
    (hc : alookup cli name = none) :
    (execute_command cfg cli validate bodySem agent text).executed = none ∧
    (execute_command cfg cli validate bodySem agent text).blocked = false ∧
    (execute_command cfg cli validate bodySem agent text).historyRecorded
      = true ∧
    [("red", "Unknown command: " ++ name)] ∈
      (execute_command cfg cli validate bodySem agent text).outputs := by
  have hguard : (!pyStartsWith text "/" && agent) = false := by
    rcases hmode with hm | hm <;> simp [hm]
  have hd : decide (name ∈ (["quit", "exit", "status", "info"] : List String))
      = false := decide_eq_false hb
  simp only [List.mem_cons, List.not_mem_nil, or_false, not_or] at hb
  obtain ⟨hq1, hq2, hq3, hq4⟩ := hb
  have hdd : ∀ (vr : ValidationResult) (lvl : Option String),
      dispatchDecision false vr lvl = (false, false, true) := fun _ _ => rfl
  unfold execute_command
  simp only [hguard, Bool.false_eq_true, if_false]
  rw [hsplit]
  dsimp only
  rw [hd, hc]
  simp only [Option.isSome_none, Bool.or_self, hdd]
  simp only [Bool.false_eq_true, if_false, Bool.or_eq_true, beq_iff_eq,
    hq1, hq2, or_self]
  simp [List.mem_append]

/-- C1 (witness): the amended theorem applied to the `/foo` submission of
the counterexample. -/
theorem execute_command_unknown_reports_error_and_records_history_witness :
    (execute_command {} [] (validate_command_auto []) (fun _ _ => {})
      false "/foo").executed = none ∧
    (execute_command {} [] (validate_command_auto []) (fun _ _ => {})
      false "/foo").blocked = false ∧
    (execute_command {} [] (validate_command_auto []) (fun _ _ => {})
      false "/foo").historyRecorded = true ∧
    [("red", "Unknown command: " ++ "foo")] ∈
      (execute_command {} [] (validate_command_auto []) (fun _ _ => {})
        false "/foo").outputs :=
  execute_command_unknown_reports_error_and_records_history
    {} [] (validate_command_auto []) (fun _ _ => {}) false "/foo" "foo" []
    (Or.inl rfl) rfl (by decide) rfl

/-- C2 (counterexample): a command whose single argument is optional (level
`optional`) yields `invalid` from `validate_command` when handed an extra
positional token, so "optional never produces invalid" is false on the
code: click reports the structural failure and `validate_command` returns
it with status `invalid` and level `optional`. -/
theorem optional_level_invalid_counterexample :
    (extract_validation_rule helloOptionalCmd).level = "optional" ∧
    (validate_command [("hello", extract_validation_rule helloOptionalCmd)]
        "hello" ["a", "b"]).1.1.status = "invalid" := by
  constructor
  · rfl
  · rfl

/-- C2 (amended): `validate_command` may return `invalid` for an
optional-level command (see the counterexample), but the dispatcher blocks
a submission only when the validator reports level `required`; whenever the
validator never reports `required` — in particular for every optional-level
command — the submission is never blocked. -/
theorem execute_command_optional_level_never_blocks
    (cfg : Config) (cli : Cli)
    (validate : String → List String →
      (ValidationResult × Option String) × List String)
    (bodySem : ClickCommand → List String → ExecBehavior)
    (agent : Bool) (text : String)
    (h : ∀ name args, (validate name args).1.2 ≠ some "required") :
    (execute_command cfg cli validate bodySem agent text).blocked = false := by
  unfold execute_command
  split
  · rfl
  · split
    all_goals
      dsimp only
      split
      · rfl
      · rename_i cmd_name cmd_args heq
        have hd := dispatchDecision_not_required
          (decide (cmd_name ∈ ["quit", "exit", "status", "info"])
            || (alookup cli cmd_name).isSome)
          ((validate cmd_name cmd_args).1.1) ((validate cmd_name cmd_args).1.2)
          (h cmd_name cmd_args)
        simp only [hd, Bool.false_eq_true, if_false]
        split
        · rfl
        · split
          · split
            · split <;> rfl
            · rfl
          · rfl
          · rfl

/-- C2 (witness): the amended theorem applied to a submission whose
validator reports an invalid result at level `optional`. -/
theorem execute_command_optional_level_never_blocks_witness :
    (execute_command {} []
      (fun _ _ => ((⟨"invalid", some "extra argument"⟩, some "optional"), []))
      (fun _ _ => {}) false "/hello a b").blocked = false :=
  execute_command_optional_level_never_blocks {} []
    (fun _ _ => ((⟨"invalid", some "extra argument"⟩, some "optional"), []))
    (fun _ _ => {}) false "/hello a b" (fun _ _ => by simp)

/-- C3 (counterexample): a command whose only choices-bearing parameter is
a non-required option gets level `"none"`, not `"required"`: the extractor
raises `has_required_params` for `Choice` types only on arguments, so the
claim fails for options. -/
theorem choice_option_rule_counterexample :
    (∃ p ∈ envChoiceOptionCmd.params, p.type.isChoice = true) ∧
    (extract_validation_rule envChoiceOptionCmd).level ≠ "required" := by
  constructor
  · decide
  · decide

/-- C3 (amended): a `choices` constraint forces `level = required`
regardless of the `required` flag for argument parameters: any command
declaring an argument whose type is a `click.Choice` extracts to a rule of
level `"required"`.  (For options, only the `required` flag matters.) -/
theorem extract_rule_choice_argument_forces_required (cmd : ClickCommand)
    (h : ∃ p ∈ cmd.params, p.kind = ParamKind.argument ∧
      p.type.isChoice = true) :
    (extract_validation_rule cmd).level = "required" := by
  obtain ⟨p, hm, hk, hc⟩ := h
  exact extract_level_required cmd
    ⟨p, hm, by simp [paramForcesRequired, hk, hc]⟩

/-- C3 (witness): the amended theorem applied to the `deploy` command,
whose `env` argument carries a choice set but no explicit required flag
dependence. -/
theorem extract_rule_choice_argument_forces_required_witness :
    (extract_validation_rule deployCmd).level = "required" :=
  extract_rule_choice_argument_forces_required deployCmd (by decide)

/-- C4: for every command declaring a required argument with no default,
`validate(path, [])` on its extracted rule returns `invalid` together with
level `required`, and the message names the missing (required, value-less)
parameter. -/
theorem validate_missing_required_argument
    (rules : List (String × ValidationRule)) (path : String)
    (cmd : ClickCommand)
    (hr : alookup rules path = some (extract_validation_rule cmd))
    (h : ∃ p ∈ cmd.params, p.kind = ParamKind.argument ∧ p.required = true ∧
      p.default = none) :
    ∃ q ∈ cmd.params, q.required = true ∧
      (validate_command rules path []).1 =
        (⟨"invalid", some ("Missing required argument: " ++ q.name)⟩,
          some "required") := by
  obtain ⟨p, hpmem, hka, hreq, hdef⟩ := h
  have hforce : ∃ r ∈ cmd.params, paramForcesRequired r = true :=
    ⟨p, hpmem, by simp [paramForcesRequired, hka, hreq]⟩
  have hlv := extract_level_required cmd hforce
  have hfind : (cmd.params.find? missingOnEmpty).isSome := by
    rw [List.find?_isSome]
    exact ⟨p, hpmem, by simp [missingOnEmpty, hreq, hdef]⟩
  obtain ⟨q, hq⟩ := Option.isSome_iff_exists.mp hfind
  have hqmem := List.mem_of_find?_eq_some hq
  have hqP := List.find?_some hq
  have hqreq : q.required = true := by
    simp only [missingOnEmpty, Bool.and_eq_true] at hqP
    exact hqP.1
  refine ⟨q, hqmem, hqreq, ?_⟩
  unfold validate_command
  rw [hr]
  simp only [hlv, extract_click_command_eq, validateWithRule, parse_args_nil,
    hq, show (("required" : String) == "none") = false from rfl,
    Bool.false_eq_true, if_false]

/-- C4 (witness): the theorem applied to the `greet` command with its
required `name` argument. -/
theorem validate_missing_required_argument_witness :
    ∃ q ∈ greetCmd.params, q.required = true ∧
      (validate_command [("greet", extract_validation_rule greetCmd)]
        "greet" []).1 =
        (⟨"invalid", some ("Missing required argument: " ++ q.name)⟩,
          some "required") :=
  validate_missing_required_argument
    [("greet", extract_validation_rule greetCmd)] "greet" greetCmd
    rfl (by decide)

/-- C5: evaluation of the text-changed handler at a concrete state shows
the divergence from the claim: with `placeholder_active`,
`placeholder_start = 8`, cursor 9 and text `"/deploy <environment> now"`
(placeholder span `[8, 21)`, length 13), the handler clears the flag and
skips completion recomputation as claimed, but the new text is
`"/deploy "` — the span PLUS the six characters after it removed
(`text[span[1] + 6:]`), not `"/deploy  now"` with exactly the span removed
— and the cursor moves back by the constant 6 (to 3), not by the span
length. -/
theorem placeholder_removal_removes_span_plus_six :
    (on_text_changed (fun _ => [])
      { placeholder_active := true, placeholder_start := 8 }
      { text := "/deploy <environment> now", cursor_position := 9 }
      ).state.placeholder_active = false ∧
    (on_text_changed (fun _ => [])
      { placeholder_active := true, placeholder_start := 8 }
      { text := "/deploy <environment> now", cursor_position := 9 }
      ).recomputedCompletions = false ∧
    (on_text_changed (fun _ => [])
      { placeholder_active := true, placeholder_start := 8 }
      { text := "/deploy <environment> now", cursor_position := 9 }
      ).buffer.text = "/deploy " ∧
    (on_text_changed (fun _ => [])
      { placeholder_active := true, placeholder_start := 8 }
      { text := "/deploy <environment> now", cursor_position := 9 }
      ).buffer.text ≠ "/deploy  now" ∧
    (on_text_changed (fun _ => [])
      { placeholder_active := true, placeholder_start := 8 }
      { text := "/deploy <environment> now", cursor_position := 9 }
      ).buffer.cursor_position = 3 := by
  refine ⟨rfl, rfl, rfl, by decide, rfl⟩

/-- C6: with `slashActive` and more than one completion, for every sequence
of Up/Down events the selection index stays within `[0, len-1]`, and any
single further event moves it by at most 1, with Up at 0 and Down at
`len-1` leaving it in place (no wraparound). -/
theorem nav_menu_selection_clamped_no_wraparound
    (keys : List NavKey) (s : REPLState) (b : KBuffer)
    (hs : s.slash_command_active = true)
    (hlen : 1 < s.completions.length)
    (hlo : 0 ≤ s.selected_idx)
    (hhi : s.selected_idx < (s.completions.length : Int)) :
    (0 ≤ (navRun keys (s, b)).1.selected_idx ∧
      (navRun keys (s, b)).1.selected_idx < (s.completions.length : Int)) ∧
    (∀ k : NavKey,
      ((navStep k (navRun keys (s, b))).1.selected_idx -
        (navRun keys (s, b)).1.selected_idx).natAbs ≤ 1) ∧
    (∀ k : NavKey, k = NavKey.up →
      (navRun keys (s, b)).1.selected_idx = 0 →
      (navStep k (navRun keys (s, b))).1.selected_idx = 0) ∧
    (∀ k : NavKey, k = NavKey.down →
      (navRun keys (s, b)).1.selected_idx = (s.completions.length : Int) - 1 →
      (navStep k (navRun keys (s, b))).1.selected_idx =
        (s.completions.length : Int) - 1) := by
  obtain ⟨g1, g2, g3, g4⟩ :=
    navRun_menu_invariant keys (s, b) hs hlen hlo hhi
  rcases hr : navRun keys (s, b) with ⟨t, c⟩
  rw [hr] at g1 g2 g3 g4
  have hlen2 : 1 < t.completions.length := by rw [g2]; exact hlen
  have hhi2 : t.selected_idx < (t.completions.length : Int) := by
    rw [g2]; exact g4
  have hleq : ((t.completions.length : Int)) = (s.completions.length : Int) :=
    by rw [g2]
  refine ⟨⟨g3, g4⟩, ?_, ?_, ?_⟩
  · intro k
    exact (navStep_menu_step k t c g1 hlen2 g3 hhi2).2.2.1
  · intro k hk h0
    exact (navStep_menu_step k t c g1 hlen2 g3 hhi2).2.2.2.2.2.1 hk h0
  · intro k hk h0
    have hres := (navStep_menu_step k t c g1 hlen2 g3 hhi2).2.2.2.2.2.2
    rw [hleq] at hres
    exact hres hk h0

/-- C6 (witness): the theorem applied to a two-entry menu with the
selection at index 0 and the event sequence Down, Down, Up. -/
theorem nav_menu_selection_clamped_no_wraparound_witness :
    (0 ≤ (navRun [NavKey.down, NavKey.down, NavKey.up]
        ({ completions := [{ text := "aa" }, { text := "bb" }],
           selected_idx := 0, slash_command_active := true },
         { text := "/", cursor_position := 1 })).1.selected_idx ∧
      (navRun [NavKey.down, NavKey.down, NavKey.up]
        ({ completions := [{ text := "aa" }, { text := "bb" }],
           selected_idx := 0, slash_command_active := true },
         { text := "/", cursor_position := 1 })).1.selected_idx <
        (([{ text := "aa" }, { text := "bb" }] :
            List Completion).length : Int)) ∧
    (∀ k : NavKey,
      ((navStep k (navRun [NavKey.down, NavKey.down, NavKey.up]
          ({ completions := [{ text := "aa" }, { text := "bb" }],
             selected_idx := 0, slash_command_active := true },
           { text := "/", cursor_position := 1 }))).1.selected_idx -
        (navRun [NavKey.down, NavKey.down, NavKey.up]
          ({ completions := [{ text := "aa" }, { text := "bb" }],
             selected_idx := 0, slash_command_active := true },
           { text := "/", cursor_position := 1 })).1.selected_idx).natAbs
        ≤ 1) ∧
    (∀ k : NavKey, k = NavKey.up →
      (navRun [NavKey.down, NavKey.down, NavKey.up]
        ({ completions := [{ text := "aa" }, { text := "bb" }],
           selected_idx := 0, slash_command_active := true },
         { text := "/", cursor_position := 1 })).1.selected_idx = 0 →
      (navStep k (navRun [NavKey.down, NavKey.down, NavKey.up]
        ({ completions := [{ text := "aa" }, { text := "bb" }],
           selected_idx := 0, slash_command_active := true },
         { text := "/", cursor_position := 1 }))).1.selected_idx = 0) ∧
    (∀ k : NavKey, k = NavKey.down →
      (navRun [NavKey.down, NavKey.down, NavKey.up]
        ({ completions := [{ text := "aa" }, { text := "bb" }],
           selected_idx := 0, slash_command_active := true },
         { text := "/", cursor_position := 1 })).1.selected_idx =
        (([{ text := "aa" }, { text := "bb" }] :
            List Completion).length : Int) - 1 →
      (navStep k (navRun [NavKey.down, NavKey.down, NavKey.up]
        ({ completions := [{ text := "aa" }, { text := "bb" }],
           selected_idx := 0, slash_command_active := true },
         { text := "/", cursor_position := 1 }))).1.selected_idx =
        (([{ text := "aa" }, { text := "bb" }] :
            List Completion).length : Int) - 1) :=
  nav_menu_selection_clamped_no_wraparound
    [NavKey.down, NavKey.down, NavKey.up]
    { completions := [{ text := "aa" }, { text := "bb" }],
      selected_idx := 0, slash_command_active := true }
    { text := "/", cursor_position := 1 }
    rfl (by decide) (by decide) (by decide)

/-- C7: a command body raising an exception other than the deliberate
termination signal (`SystemExit`) is caught at the execution boundary of
`_execute_click_command`: nothing ever propagates out of the boundary, and
the raised exception is converted to a red-styled error output line. -/
theorem execute_click_command_contains_exceptions (b : ExecBehavior)
    (e : PyExc) (hr : b.raises = some e) (hne : e ≠ PyExc.systemExit) :
    (∀ b2 : ExecBehavior, (execute_click_command b2).propagated = none) ∧
    (∃ msg : String, [("red", msg)] ∈ (execute_click_command b).outputs) := by
  constructor
  · intro b2
    unfold execute_click_command
    cases hb : b2.raises with
    | none => rfl
    | some e2 => cases e2 <;> rfl
  · unfold execute_click_command
    rw [hr]
    cases e with
    | systemExit => exact absurd rfl hne
    | missingParameter n =>
      exact ⟨"Missing argument: " ++ n, by simp [catchClauses]⟩
    | exception m =>
      exact ⟨"Error: " ++ m, by simp [catchClauses]⟩

/-- C7 (witness): the theorem applied to a body raising a generic
exception. -/
theorem execute_click_command_contains_exceptions_witness :
    (∀ b2 : ExecBehavior, (execute_click_command b2).propagated = none) ∧
    (∃ msg : String, [("red", msg)] ∈
      (execute_click_command { raises := some (PyExc.exception "boom") }
        ).outputs) :=
  execute_click_command_contains_exceptions
    { raises := some (PyExc.exception "boom") } (PyExc.exception "boom")
    rfl (by decide)

/-- C8: rule extraction is deterministic: calling
`_extract_validation_rule` twice on the same command yields rules that are
field-for-field identical. -/
theorem extract_validation_rule_idempotent (cmd : ClickCommand) :
    (extract_validation_rule cmd).level = (extract_validation_rule cmd).level ∧
    (extract_validation_rule cmd).required_args
      = (extract_validation_rule cmd).required_args ∧
    (extract_validation_rule cmd).optional_args
      = (extract_validation_rule cmd).optional_args ∧
    (extract_validation_rule cmd).arg_count_min
      = (extract_validation_rule cmd).arg_count_min ∧
    (extract_validation_rule cmd).arg_count_max
      = (extract_validation_rule cmd).arg_count_max ∧
    (extract_validation_rule cmd).choice_params
      = (extract_validation_rule cmd).choice_params ∧
    (extract_validation_rule cmd).type_params
      = (extract_validation_rule cmd).type_params ∧
    (extract_validation_rule cmd).required_options
      = (extract_validation_rule cmd).required_options ∧
    (extract_validation_rule cmd).option_names
      = (extract_validation_rule cmd).option_names ∧
    (extract_validation_rule cmd).click_command
      = (extract_validation_rule cmd).click_command :=
  ⟨rfl, rfl, rfl, rfl, rfl, rfl, rfl, rfl, rfl, rfl⟩

/-- C9: `ValidationManager.validate_command` leaves the caller's argument
list unchanged in every branch (the source hands `parse_args` — which
drains the list it receives — a copy of `cmd_args`). -/
theorem validate_command_preserves_caller_args
    (rules : List (String × ValidationRule)) (path : String)
    (args : List String) :
    (validate_command rules path args).2 = args := by
  unfold validate_command
  rcases h : alookup rules path with _ | rule
  · rfl
  · dsimp only
    split_ifs
    · rfl
    · rcases rule.click_command with _ | cmd <;> rfl

/-- C10: `OutputCapture.write` invokes the output callback exactly once for
text that is non-empty and not exactly a lone newline, and zero times
otherwise; the single emitted line carries the configured error colour for
a stderr capture and the empty style otherwise. -/
theorem output_capture_write_once_with_stream_styling
    (oc : OutputCapture) (s : String) :
    oc.write s =
      if s = "" ∨ s = "\n" then []
      else [[(if oc.stream_type = "stderr" then oc.error_color else "", s)]] := by
  unfold OutputCapture.write
  by_cases h1 : s = "" <;> by_cases h2 : s = "\n" <;>
    by_cases h3 : oc.stream_type = "stderr" <;>
    simp [h1, h2, h3]

end CliReplKit
